import Mathlib

/-!
Shallow embedding of the Rex self-contained executable bundler
(src/main.rs, src/generator.rs, src/runtime.rs).

Bytes are modelled as `Nat` (each < 256 where produced by serialization),
file images as `List Nat`.  u64/u32 arithmetic is modelled on `Nat` with an
explicit `% 2^w` wherever the Rust code can wrap in release mode; a
`checked_sub(..).unwrap()` panic is modelled as a dedicated result
constructor.  Filesystem probes are modelled as boolean predicates on path
strings, and side effects of the generator as an explicit event list.
-/

set_option maxRecDepth 100000

namespace Rex

/-- `MAGIC_MARKER = *b"REX_BUNDLE"` (runtime.rs line 13, generator.rs line 13). -/
def MAGIC_MARKER : List Nat := [82, 69, 88, 95, 66, 85, 78, 68, 76, 69]

/-- `#[repr(C, packed)] struct BundleMetadata` (generator.rs lines 15-20,
runtime.rs lines 15-20): `payload_size: u64`, `compression_type: u32`,
`target_bin_name_len: u32`. -/
structure BundleMetadata where
  payload_size : Nat
  compression_type : Nat
  target_bin_name_len : Nat
  deriving DecidableEq, Repr

/-- `size_of::<BundleMetadata>()`, checked by the const assert in
runtime.rs line 22 to equal 16 (= 8 + 4 + 4, packed). -/
def sizeOfBundleMetadata : Nat := 16

/-- Little-endian byte serialization of a `w`-byte unsigned integer;
truncates the value modulo `256 ^ w` exactly as storing into uN would. -/
def leBytes (w v : Nat) : List Nat :=
  (List.range w).map (fun i => v / 256 ^ i % 256)

/-- Little-endian decoding, as in `u64::from_le_bytes` / `u32::from_le_bytes`
(runtime.rs lines 118-120). -/
def leDecode (bs : List Nat) : Nat :=
  bs.foldr (fun b acc => b % 256 + 256 * acc) 0

/-- The raw in-memory bytes of the packed `BundleMetadata` record, as written
by `final_file.write_all(metadata_bytes)` in generator.rs lines 264-268:
8 LE bytes of `payload_size`, 4 LE bytes of `compression_type`,
4 LE bytes of `target_bin_name_len`. -/
def metadataBytes (m : BundleMetadata) : List Nat :=
  leBytes 8 m.payload_size ++ leBytes 4 m.compression_type ++
    leBytes 4 m.target_bin_name_len

/-- Decoding of a 16-byte metadata slice (runtime.rs lines 117-121). -/
def decodeMetadata (bs : List Nat) : BundleMetadata :=
  { payload_size := leDecode (bs.take 8)
    compression_type := leDecode ((bs.drop 8).take 4)
    target_bin_name_len := leDecode ((bs.drop 12).take 4) }

/-- The full trailer appended after the payload: name bytes, metadata record,
magic marker (generator.rs lines 262-269). -/
def trailerBytes (name : List Nat) (m : BundleMetadata) : List Nat :=
  name ++ metadataBytes m ++ MAGIC_MARKER

/-- `FIXED_METADATA_SIZE = size_of::<BundleMetadata>() + MAGIC_MARKER.len()`
(runtime.rs line 95): 16 + 10 = 26. -/
def FIXED_METADATA_SIZE : Nat := sizeOfBundleMetadata + MAGIC_MARKER.length

/-- `MAX_NAME_LEN` (runtime.rs line 96). -/
def MAX_NAME_LEN : Nat := 256

/-- `file_size.saturating_sub(FIXED_METADATA_SIZE + MAX_NAME_LEN)`
(runtime.rs line 98); `Nat` subtraction is exactly saturating. -/
def searchStartOffset (fileSize : Nat) : Nat :=
  fileSize - (FIXED_METADATA_SIZE + MAX_NAME_LEN)

/-- The tail window read into `buffer` (runtime.rs lines 99-102). -/
def searchBuffer (file : List Nat) : List Nat :=
  file.drop (searchStartOffset file.length)

/-- Whether the 10 bytes of `buf` starting at index `i` equal the magic. -/
def isMarkerAt (buf : List Nat) (i : Nat) : Bool :=
  (buf.drop i).take MAGIC_MARKER.length == MAGIC_MARKER

/-- `buffer.windows(MAGIC_MARKER.len()).rposition(|w| w == MAGIC_MARKER)`
(runtime.rs line 104): the largest window index whose window is the magic. -/
def rfindMarker (buf : List Nat) : Option Nat :=
  ((List.range (buf.length + 1 - MAGIC_MARKER.length)).filter
    (fun i => isMarkerAt buf i)).getLast?

/-- UTF-8 continuation byte (`0x80..=0xBF`). -/
def isCont (b : Nat) : Bool := 0x80 ≤ b && b ≤ 0xBF

/-- RFC 3629 UTF-8 validity of a byte sequence, the check performed by
`String::from_utf8` in runtime.rs line 134. -/
def validUtf8 : List Nat → Bool
  | [] => true
  | b0 :: rest =>
    if b0 ≤ 0x7F then validUtf8 rest
    else if 0xC2 ≤ b0 && b0 ≤ 0xDF then
      match rest with
      | b1 :: rest1 => isCont b1 && validUtf8 rest1
      | [] => false
    else if b0 == 0xE0 then
      match rest with
      | b1 :: b2 :: rest2 =>
        (0xA0 ≤ b1 && b1 ≤ 0xBF) && isCont b2 && validUtf8 rest2
      | _ => false
    else if (0xE1 ≤ b0 && b0 ≤ 0xEC) || b0 == 0xEE || b0 == 0xEF then
      match rest with
      | b1 :: b2 :: rest2 => isCont b1 && isCont b2 && validUtf8 rest2
      | _ => false
    else if b0 == 0xED then
      match rest with
      | b1 :: b2 :: rest2 =>
        (0x80 ≤ b1 && b1 ≤ 0x9F) && isCont b2 && validUtf8 rest2
      | _ => false
    else if b0 == 0xF0 then
      match rest with
      | b1 :: b2 :: b3 :: rest3 =>
        (0x90 ≤ b1 && b1 ≤ 0xBF) && isCont b2 && isCont b3 && validUtf8 rest3
      | _ => false
    else if 0xF1 ≤ b0 && b0 ≤ 0xF3 then
      match rest with
      | b1 :: b2 :: b3 :: rest3 =>
        isCont b1 && isCont b2 && isCont b3 && validUtf8 rest3
      | _ => false
    else if b0 == 0xF4 then
      match rest with
      | b1 :: b2 :: b3 :: rest3 =>
        (0x80 ≤ b1 && b1 ≤ 0x8F) && isCont b2 && isCont b3 && validUtf8 rest3
      | _ => false
    else false

/-- `struct PayloadInfo` (runtime.rs lines 24-28); the name is kept as its
raw bytes (the Rust `String` holds exactly these bytes, validated UTF-8). -/
structure PayloadInfo where
  metadata : BundleMetadata
  payload_start_offset : Nat
  target_binary_name : List Nat
  deriving DecidableEq, Repr

/-- Result of `Runtime::find_payload_info` (runtime.rs lines 90-140).
`ok none` is `Ok(None)` (no marker: generator mode), `ok (some _)` is
`Ok(Some(info))`, `error` is any `Err(..)` return (including a failed
`read_exact`), and `panicked` is the `checked_sub(..).unwrap()` panic at
runtime.rs line 128. -/
inductive ParseResult where
  | ok (info : Option PayloadInfo)
  | error (msg : String)
  | panicked
  deriving DecidableEq, Repr

/-- The tail of `find_payload_info` once the marker was located at absolute
file offset `marker_start` (runtime.rs lines 111-139).

`metadata_start = marker_start_in_file - size_of::<BundleMetadata>()` is a
plain u64 subtraction: in release mode it wraps modulo `2^64` (modelled with
the explicit modulus), after which the 16-byte `read_exact` fails past EOF.
`name_start` uses `checked_sub(..).unwrap()`: `panicked` when
`metadata_start < name_len`.  The payload offset uses
`checked_sub(..).ok_or(..)`, an `Err` on underflow; its subtrahend
`FIXED_METADATA_SIZE + name_len as u64 + metadata.payload_size` is u64
addition, which wraps modulo `2^64`. -/
def parseAfterMarker (file : List Nat) (marker_start : Nat) : ParseResult :=
  let fileSize := file.length
  let metadata_start := (marker_start + 2 ^ 64 - sizeOfBundleMetadata) % 2 ^ 64
  if fileSize < metadata_start + sizeOfBundleMetadata then
    .error "failed to fill whole buffer"
  else
    let metadata := decodeMetadata ((file.drop metadata_start).take sizeOfBundleMetadata)
    let name_len := metadata.target_bin_name_len
    if name_len = 0 then
      .error "Structure mismatch: Target binary name length is zero."
    else if metadata_start < name_len then
      .panicked
    else
      let name_bytes := (file.drop (metadata_start - name_len)).take name_len
      if validUtf8 name_bytes = false then
        .error "invalid utf-8 sequence"
      else
        let total := (FIXED_METADATA_SIZE + name_len + metadata.payload_size) % 2 ^ 64
        if fileSize < total then
          .error "Invalid payload offset"
        else
          .ok (some { metadata := metadata
                      payload_start_offset := fileSize - total
                      target_binary_name := name_bytes })

/-- `Runtime::find_payload_info` (runtime.rs lines 90-140) on the bytes of
the running executable image: read the last
`min(file_size, 16 + 10 + 256)` bytes, search the magic right-to-left,
return `Ok(None)` when absent, otherwise parse the trailer fields. -/
def find_payload_info (file : List Nat) : ParseResult :=
  match rfindMarker (searchBuffer file) with
  | none => .ok none
  | some index => parseAfterMarker file (searchStartOffset file.length + index)

/-- How `main` (main.rs lines 130-137) reacts to the result of
`Runtime::new()`: an `Err` prints a diagnostic and exits 1, a panic aborts
with the Rust panic exit code 101, otherwise execution continues
(`none`). -/
def runtime_new_exit_code (r : ParseResult) : Option Nat :=
  match r with
  | .error _ => some 1
  | .panicked => some 101
  | .ok _ => none

/-- The dispatch in `Runtime::run` (runtime.rs lines 60-88), given whether a
payload was found (`bundled`) and the full `std::env::args()` vector
(`argv.head` is the program name).  Only `args[1]` is matched against the
reserved flags; everything else falls through to
`run_bundled_binary(args[1..])`. -/
inductive RunAction where
  | help
  | extractToCwd
  | extractNoPayload
  | launchBundled (forwarded : List String)
  | errNoPayload
  deriving DecidableEq, Repr

/-- `Runtime::run` argument handling (runtime.rs lines 60-88, with the
forwarded arguments `std::env::args().skip(1)` taken from
runtime.rs line 195). -/
def run_dispatch (bundled : Bool) (argv : List String) : RunAction :=
  match argv with
  | _ :: a1 :: _ =>
    if a1 = "--rex-help" then .help
    else if a1 = "--rex-extract" then
      if bundled then .extractToCwd else .extractNoPayload
    else if bundled then .launchBundled (argv.drop 1) else .errNoPayload
  | _ => if bundled then .launchBundled (argv.drop 1) else .errNoPayload

/-- Loader probing in `run_bundled_binary` (runtime.rs lines 175-187):
`libs_dir/ld-linux-x86-64.so.2` if it exists, else
`libs_dir/ld-musl-x86_64.so.1` if it exists, else none (the
`LoaderMissing` error).  `fsExists` models `Path::exists`. -/
def select_loader (fsExists : String → Bool) (libs_dir : String) : Option String :=
  let glibc_loader := libs_dir ++ "/ld-linux-x86-64.so.2"
  let musl_loader := libs_dir ++ "/ld-musl-x86_64.so.1"
  if fsExists glibc_loader then some glibc_loader
  else if fsExists musl_loader then some musl_loader
  else none

/-- Observable effects of the spawn in `run_bundled_binary`
(runtime.rs lines 189-206).  `parentPathAfter` is the value of the
process-global `PATH` variable after the call: the code mutates it with
`std::env::set_var` (line 192) before spawning, and the child inherits it
(`childPath`). -/
structure LaunchEffect where
  parentPathAfter : String
  childPath : String
  childArgv : List String
  childCwd : String
  deriving DecidableEq, Repr

/-- The `PATH` mutation and `Command` construction of
`run_bundled_binary` (runtime.rs lines 189-206): PATH becomes
`bin_dir:old_path` process-globally, child argv is
`[loader, --library-path, libs_dir, target, original args]`, working
directory `bin_dir`. -/
def launch_effects (bin_dir libs_dir target_bin_path loader_path old_path : String)
    (args : List String) : LaunchEffect :=
  let new_path := bin_dir ++ ":" ++ old_path
  { parentPathAfter := new_path
    childPath := new_path
    childArgv := loader_path :: "--library-path" :: libs_dir :: target_bin_path :: args
    childCwd := bin_dir }

/-- The path computation, existence checks and spawn of
`run_bundled_binary` (runtime.rs lines 160-206), after extraction into
`extraction_root`.  Errors are the `TargetMissing` and `LoaderMissing`
returns of the source. -/
def run_bundled_binary_launch (fsExists : String → Bool)
    (extraction_root target_binary_name old_path : String)
    (args : List String) : Except String LaunchEffect :=
  let bundle_dir := extraction_root ++ "/" ++ target_binary_name ++ "_bundle"
  let bin_dir := bundle_dir ++ "/bins"
  let libs_dir := bundle_dir ++ "/libs"
  let target_bin_path := bundle_dir ++ "/" ++ target_binary_name
  if fsExists target_bin_path = false then
    .error ("Target binary not found in bundle: " ++ target_bin_path)
  else
    match select_loader fsExists libs_dir with
    | none => .error "No compatible loader found (ld-linux or ld-musl)"
    | some loader_path =>
      .ok (launch_effects bin_dir libs_dir target_bin_path loader_path old_path args)

/-- Outcome of waiting on the spawned child (runtime.rs line 203-206). -/
inductive ChildOutcome where
  | exited (code : Nat)
  | spawnFailed
  deriving DecidableEq, Repr

/-- Result of `run_bundled_binary` as seen by `main`: the `executed` flag
(runtime.rs line 208, reported by `has_run`) and the returned error, from
the `match result` at runtime.rs lines 210-214.  `status.success()` holds
exactly for exit code 0. -/
structure RunOutcome where
  executed : Bool
  error : Option String
  deriving DecidableEq, Repr

/-- The tail of `run_bundled_binary` (runtime.rs lines 203-215): wait for
the child and map its status to `Ok`/`Err`, setting `executed` first. -/
def run_bundled_wait (child : ChildOutcome) : RunOutcome :=
  match child with
  | .exited 0 => { executed := true, error := none }
  | .exited c =>
    { executed := true
      error := some ("Bundled binary exited with code: " ++ toString c) }
  | .spawnFailed => { executed := true, error := some "Failed to run bundled binary" }

/-- `main`'s exit logic (main.rs lines 139-148): `Ok` exits 0; `Err` exits 1
and prints the `Error:` diagnostic only when `runtime.has_run()` is false.
Returns (process exit code, whether a Rex diagnostic was printed). -/
def main_exit (r : RunOutcome) : Nat × Bool :=
  match r.error with
  | none => (0, false)
  | some _ => (1, !r.executed)

/-- The basename of a path string, as `Path::file_name` on the absolute
file paths used here: the component after the final `/`. -/
def basename (p : String) : String :=
  String.mk ((p.toList.reverse.takeWhile (fun c => !(c == '/'))).reverse)

/-- The candidate loader locations probed by `find_system_loader`
(generator.rs lines 34-42). -/
def possible_loader_paths : List String :=
  ["/lib64/ld-linux-x86-64.so.2",
   "/usr/lib64/ld-linux-x86-64.so.2",
   "/lib/ld-linux-x86-64.so.2",
   "/usr/lib/ld-linux-x86-64.so.2",
   "/usr/lib/x86_64-linux-gnu/ld-linux-x86-64.so.2",
   "/lib/ld-musl-x86_64.so.1",
   "/usr/lib/ld-musl-x86_64.so.1"]

/-- `find_system_loader` (generator.rs lines 33-51): the first candidate
path that exists on the host filesystem. -/
def find_system_loader (fsExists : String → Bool) : Option String :=
  possible_loader_paths.find? fsExists

/-- Whether `pat` occurs as a contiguous substring of `s`
(`str::contains` in generator.rs line 112). -/
def strContainsSub (s pat : String) : Bool :=
  (List.range (s.toList.length + 1)).any
    (fun i => ((s.toList.drop i).take pat.toList.length) == pat.toList)

/-- One line of `ldd` stdout, already split on whitespace
(generator.rs lines 107-117): lines with at least 3 tokens containing
`=>` contribute the token after `=>`, kept only when that path exists and
does not contain `ld-linux` or `ld-musl`. -/
def parseLddDep (fsExists : String → Bool) (parts : List String) : Option String :=
  if 3 ≤ parts.length && parts.contains "=>" then
    match (parts.dropWhile (fun p => !(p == "=>"))).drop 1 with
    | path :: _ =>
      if fsExists path && !strContainsSub path "ld-linux" && !strContainsSub path "ld-musl"
      then some path else none
    | [] => none
  else none

/-- `get_dynamic_dependencies` (generator.rs lines 82-121).  `ldd binary`
models invoking `ldd`: `none` when the command failed to run or exited
non-zero (both produce a warning and `Ok(vec![])`), `some lines` its
whitespace-split stdout lines on success.  The only `Err` return is a
missing input binary. -/
def get_dynamic_dependencies (fsExists : String → Bool)
    (ldd : String → Option (List (List String))) (binary_path : String) :
    Except String (List String) :=
  if fsExists binary_path = false then
    .error ("Binary not found at: " ++ binary_path)
  else
    match ldd binary_path with
    | none => .ok []
    | some lines => .ok (lines.filterMap (parseLddDep fsExists))

/-- `compression_id` mapping (generator.rs lines 248-252). -/
def compression_id (compression : String) : Nat :=
  if compression.toLower = "zstd" then 0
  else if compression.toLower = "xz" then 1
  else 99

/-- UTF-8 bytes of a string (`str::as_bytes`). -/
def stringBytes (s : String) : List Nat :=
  s.toUTF8.toList.map (fun b => b.toNat)

/-- The bytes of the final output file written by `generate_bundle`
(generator.rs lines 232-269): the running executable image, then the
compressed payload, then the trailer (name bytes, 16-byte metadata with
`payload_size` = payload length and `target_bin_name_len` = name length,
magic marker), appended strictly in that order. -/
def generatedMetadata (payloadBytes nameBytes : List Nat)
    (compression : String) : BundleMetadata :=
  { payload_size := payloadBytes.length
    compression_type := compression_id compression
    target_bin_name_len := nameBytes.length }

def bundleBytes (exeBytes payloadBytes nameBytes : List Nat)
    (compression : String) : List Nat :=
  exeBytes ++ payloadBytes ++
    trailerBytes nameBytes (generatedMetadata payloadBytes nameBytes compression)

/-- `BundleArgs` (generator.rs lines 23-31), with paths as strings.
`extra_bins` staging (generator.rs lines 186-200) is kept as the raw list;
its per-file dependency copying is not modelled (no claim concerns it). -/
structure BundleArgs where
  target_binary : String
  compression : String
  extra_libs : List String
  additional_files : List String
  deriving Repr

/-- Ordered side effects of `generate_bundle` (generator.rs lines 148-277)
relevant to the claims: warnings, staging copies, and the final write of
the output bundle file. -/
inductive GenEvent where
  | warnDetectFailed
  | copyLoaderToLibs (base : String)
  | warnNoLoader
  | copyTargetToRoot (name : String)
  | copyLibsToLibs (libs : List String)
  | warnMissingAdditional (path : String)
  | copyAdditionalToRoot (paths : List String)
  | writeOutput (bytes : List Nat)
  deriving DecidableEq, Repr

/-- `generate_bundle` (generator.rs lines 148-277) as the ordered list of
its staging and output effects.  A dependency-detection `Err` only warns
(lines 153-156); the extra-lib merge keeps existing paths not already in
the list (lines 158-162); the loader found by `find_system_loader` is
copied into `libs/` under its basename, a missing one only warns
(lines 174-180); additional files that do not exist warn and are skipped
(lines 210-218); the output file is always written (lines 230-269) —
there is no early return after argument validation.  `payloadBytes` is
the compressed payload produced by `create_compressed_payload`, and
`exeBytes` the running tool's own image. -/
def generate_bundle (fsExists : String → Bool)
    (ldd : String → Option (List (List String)))
    (exeBytes payloadBytes : List Nat) (args : BundleArgs) : List GenEvent :=
  let detectStep : List GenEvent × List String :=
    match get_dynamic_dependencies fsExists ldd args.target_binary with
    | .ok detected_libs => ([], detected_libs)
    | .error _ => ([.warnDetectFailed], [])
  let final_libs := args.extra_libs.foldl
    (fun acc lib => if fsExists lib && !acc.contains lib then acc ++ [lib] else acc)
    detectStep.2
  let loaderStep : List GenEvent :=
    match find_system_loader fsExists with
    | some loader_path => [.copyLoaderToLibs (basename loader_path)]
    | none => [.warnNoLoader]
  let target_name := basename args.target_binary
  let extraWarn : List GenEvent :=
    (args.additional_files.filter (fun p => !fsExists p)).map .warnMissingAdditional
  let extraCopy : List GenEvent :=
    [.copyAdditionalToRoot (args.additional_files.filter fsExists)]
  detectStep.1 ++ loaderStep ++ [.copyTargetToRoot target_name]
    ++ [.copyLibsToLibs final_libs] ++ extraWarn ++ extraCopy
    ++ [.writeOutput (bundleBytes exeBytes payloadBytes (stringBytes target_name)
          args.compression)]

/-- Whether a generator event is the write of the final output file. -/
def isWriteOutput : GenEvent → Bool
  | .writeOutput _ => true
  | _ => false

/-! ### Helper lemmas -/

theorem leBytes_length (w v : Nat) : (leBytes w v).length = w := by
  simp [leBytes]

theorem metadataBytes_length (m : BundleMetadata) : (metadataBytes m).length = 16 := by
  simp [metadataBytes, leBytes]

theorem leBytes_succ (w v : Nat) :
    leBytes (w + 1) v = v % 256 :: leBytes w (v / 256) := by
  simp only [leBytes, List.range_succ_eq_map, List.map_map, List.map_cons, pow_zero,
    Nat.div_one]
  congr 1
  apply List.map_congr_left
  intro i _
  simp [Function.comp, pow_succ, Nat.div_div_eq_div_mul, Nat.mul_comm]

theorem leDecode_leBytes (w v : Nat) : leDecode (leBytes w v) = v % 256 ^ w := by
  induction w generalizing v with
  | zero => simp [leBytes, leDecode, Nat.mod_one]
  | succ w ih =>
    rw [leBytes_succ]
    simp only [leDecode, List.foldr_cons] at *
    rw [ih, Nat.mod_mod_of_dvd v (dvd_refl 256), pow_succ,
      Nat.mul_comm (256 ^ w) 256, Nat.mod_mul]

/-! ### Claim C1 — size and shape of the trailer metadata record -/

/-- **C1, counterexample.**  The claim says the `BundleMetadata` record is
exactly 12 bytes and the trailer totals `name_len + 12 + 10` bytes.  On the
embedded code the serialized record of a concrete metadata value has 16
bytes (there is a third field, `compression_type: u32`), and the trailer of
a one-byte name has 27 ≠ 1 + 12 + 10 bytes. -/
theorem C1_counterexample :
    (metadataBytes ⟨0, 0, 1⟩).length ≠ 12
    ∧ (trailerBytes [97] ⟨0, 0, 1⟩).length ≠ 1 + 12 + 10 := by
  decide

/-- **C1 (amended).**  The bundle trailer's `BundleMetadata` record is
exactly 16 bytes — a little-endian `payload_size: u64`, then a
little-endian `compression_type: u32`, then a little-endian
`target_bin_name_len: u32` and nothing else — so for every bundle the
total trailer size equals `name_len + 16 + 10` bytes.  Decoding the record
little-endian recovers the three fields (truncated to their widths). -/
theorem C1_theorem (m : BundleMetadata) (name : List Nat) :
    (metadataBytes m).length = 16
    ∧ (trailerBytes name m).length = name.length + 16 + 10
    ∧ decodeMetadata (metadataBytes m) =
        { payload_size := m.payload_size % 2 ^ 64
          compression_type := m.compression_type % 2 ^ 32
          target_bin_name_len := m.target_bin_name_len % 2 ^ 32 } := by
  have h8 : (leBytes 8 m.payload_size).length = 8 := leBytes_length 8 _
  have h4 : (leBytes 4 m.compression_type).length = 4 := leBytes_length 4 _
  have e : metadataBytes m = leBytes 8 m.payload_size ++
      (leBytes 4 m.compression_type ++ leBytes 4 m.target_bin_name_len) := by
    simp [metadataBytes, List.append_assoc]
  refine ⟨metadataBytes_length m, ?_, ?_⟩
  · simp [trailerBytes, metadataBytes, leBytes, MAGIC_MARKER]
  · have d8 : (metadataBytes m).drop 8 =
        leBytes 4 m.compression_type ++ leBytes 4 m.target_bin_name_len := by
      rw [e]; exact List.drop_left' h8
    have d12 : (metadataBytes m).drop 12 = leBytes 4 m.target_bin_name_len := by
      have h12 : ((metadataBytes m).drop 8).drop 4 = (metadataBytes m).drop 12 := by
        rw [List.drop_drop]
      rw [← h12, d8, List.drop_left' h4]
    have t8 : (metadataBytes m).take 8 = leBytes 8 m.payload_size := by
      rw [e]; exact List.take_left' h8
    have tfull : (leBytes 4 m.target_bin_name_len).take 4 = leBytes 4 m.target_bin_name_len :=
      List.take_of_length_le (le_of_eq (leBytes_length 4 _))
    have tc : ((metadataBytes m).drop 8).take 4 = leBytes 4 m.compression_type := by
      rw [d8]; exact List.take_left' h4
    simp only [decodeMetadata, t8, tc, d12, tfull, leDecode_leBytes]
    congr 1

/-! ### Claim C2 — exit code after a failing bundled child -/

/-- **C2, counterexample.**  The claim says a bundled run whose child exits
non-zero makes the bundle exit with exactly the child's code.  On the
embedded code a child exit code 42 produces process exit code 1 (the fixed
generic failure code of `main`), not 42; no Rex diagnostic is printed. -/
theorem C2_counterexample :
    main_exit (run_bundled_wait (ChildOutcome.exited 42)) = (1, false)
    ∧ (main_exit (run_bundled_wait (ChildOutcome.exited 42))).1 ≠ 42 := by
  decide

/-- **C2 (amended).**  For every bundled run in which the spawned target
exits with a non-zero code, the bundle process exits with the fixed code 1
(not the child's code), and no Rex-level error diagnostic is printed for
this case (`has_run()` suppresses it). -/
theorem C2_theorem (c : Nat) (h : c ≠ 0) :
    main_exit (run_bundled_wait (ChildOutcome.exited c)) = (1, false) := by
  cases c with
  | zero => exact absurd rfl h
  | succ n => rfl

/-- **C2, witness** at child exit code 42. -/
theorem C2_witness :
    main_exit (run_bundled_wait (ChildOutcome.exited 42)) = (1, false) :=
  C2_theorem 42 (by decide)

/-! ### Claim C9 — byte order of the generated bundle -/

/-- **C9.**  In every generated bundle the bytes are, in order: the copied
tool image, the payload stream, the target name bytes, the metadata
record, and the 10-byte magic marker; so the trailer is written strictly
after the payload, and the magic marker is the last 10 bytes of the
output file. -/
theorem C9_theorem (exe payload name : List Nat) (compression : String) :
    bundleBytes exe payload name compression
      = (exe ++ payload) ++
          (name ++ metadataBytes (generatedMetadata payload name compression)
            ++ MAGIC_MARKER)
    ∧ (bundleBytes exe payload name compression).drop (exe.length + payload.length)
      = trailerBytes name (generatedMetadata payload name compression)
    ∧ (bundleBytes exe payload name compression).drop
        ((bundleBytes exe payload name compression).length - 10) = MAGIC_MARKER := by
  have e1 : bundleBytes exe payload name compression
      = (exe ++ payload) ++ trailerBytes name (generatedMetadata payload name compression) := by
    simp [bundleBytes, List.append_assoc]
  have hl : (exe ++ payload).length = exe.length + payload.length := List.length_append _ _
  refine ⟨by rw [e1]; simp [trailerBytes, List.append_assoc], ?_, ?_⟩
  · rw [e1, List.drop_left' hl]
  · have e2 : bundleBytes exe payload name compression
        = (exe ++ payload ++ (name ++
            metadataBytes (generatedMetadata payload name compression))) ++ MAGIC_MARKER := by
      simp [bundleBytes, trailerBytes, List.append_assoc]
    have hm : (metadataBytes (generatedMetadata payload name compression)).length = 16 :=
      metadataBytes_length _
    have hmag : MAGIC_MARKER.length = 10 := by decide
    have hp : (exe ++ payload ++ (name ++
        metadataBytes (generatedMetadata payload name compression))).length
        = (exe ++ payload ++ (name ++
            metadataBytes (generatedMetadata payload name compression))
            ++ MAGIC_MARKER).length - 10 := by
      simp only [List.length_append, hm, hmag]
      omega
    rw [e2, List.drop_left' hp]

/-! ### Claim C10 — reserved flags only recognised at argv[1] -/

/-- **C10.**  In bundled mode the reserved flags `--rex-help` and
`--rex-extract` take effect only as the first command-line argument
(`argv[1]`): with any other `argv[1]`, the whole tail `argv[1..]` —
including any later occurrence of the reserved strings — is forwarded
verbatim to the embedded target; with `argv[1]` equal to a reserved flag
the corresponding action runs. -/
theorem C10_theorem (a0 a1 : String) (rest : List String)
    (h1 : a1 ≠ "--rex-help") (h2 : a1 ≠ "--rex-extract") :
    run_dispatch true (a0 :: a1 :: rest) = RunAction.launchBundled (a1 :: rest)
    ∧ run_dispatch true (a0 :: "--rex-help" :: rest) = RunAction.help
    ∧ run_dispatch true (a0 :: "--rex-extract" :: rest) = RunAction.extractToCwd := by
  refine ⟨?_, ?_, ?_⟩
  · simp [run_dispatch, h1, h2]
  · simp [run_dispatch]
  · simp [run_dispatch]

/-- **C10, witness**: with `--rex-help` in a later position (argv[2]) it is
forwarded verbatim to the target; at argv[1] the reserved flags act. -/
theorem C10_witness :
    run_dispatch true ["rex", "x", "--rex-help"]
      = RunAction.launchBundled ["x", "--rex-help"]
    ∧ run_dispatch true ["rex", "--rex-help", "--rex-help"] = RunAction.help
    ∧ run_dispatch true ["rex", "--rex-extract", "--rex-help"]
      = RunAction.extractToCwd :=
  C10_theorem "rex" "x" ["--rex-help"] (by decide) (by decide)

/-! ### Claim C3 — behaviour on a statically linked target -/

/-- Host filesystem of the static-target scenario: only the target binary
exists. -/
def c3fs : String → Bool := fun p => p == "/bin/busybox"

/-- `ldd` on a statically linked binary: it runs and prints
`statically linked`, a line with no `=>`, so no dependency is detected. -/
def c3ldd : String → Option (List (List String)) :=
  fun _ => some [["statically", "linked"]]

def c3args : BundleArgs :=
  ⟨"/bin/busybox", "zstd", [], []⟩

/-- **C3, counterexample.**  The claim says that when the dependency
collector reports no dynamic dependencies the generator returns early and
produces no output file.  On the embedded code, with the collector
reporting zero dependencies, `generate_bundle` still performs the final
output write: there is no static-binary early return. -/
theorem C3_counterexample :
    get_dynamic_dependencies c3fs c3ldd c3args.target_binary = Except.ok []
    ∧ (generate_bundle c3fs c3ldd [7] [8] c3args).any isWriteOutput = true := by
  exact ⟨rfl, rfl⟩

/-- **C3 (amended).**  For every statically linked target (the dependency
collector reports no dynamic dependencies), the generator does not return
early: it proceeds with an empty library list and still writes the output
bundle file. -/
theorem C3_theorem (fs : String → Bool) (ldd : String → Option (List (List String)))
    (exeB payloadB : List Nat) (args : BundleArgs)
    (h : get_dynamic_dependencies fs ldd args.target_binary = .ok []) :
    GenEvent.writeOutput (bundleBytes exeB payloadB
        (stringBytes (basename args.target_binary)) args.compression)
      ∈ generate_bundle fs ldd exeB payloadB args := by
  simp [generate_bundle, h]

/-- **C3, witness** on the static-busybox scenario. -/
theorem C3_witness :
    GenEvent.writeOutput (bundleBytes [7] [8]
        (stringBytes (basename c3args.target_binary)) c3args.compression)
      ∈ generate_bundle c3fs c3ldd [7] [8] c3args :=
  C3_theorem c3fs c3ldd [7] [8] c3args rfl

/-! ### Claim C5 — PATH mutation around the spawn -/

/-- Filesystem where every probed path exists (target and glibc loader). -/
def c5fs : String → Bool := fun _ => true

/-- The launch effect produced in the C5 scenario. -/
def c5eff : LaunchEffect :=
  launch_effects "/tmp/rex/hello_bundle/bins" "/tmp/rex/hello_bundle/libs"
    "/tmp/rex/hello_bundle/hello"
    "/tmp/rex/hello_bundle/libs/ld-linux-x86-64.so.2" "/usr/bin" ["arg"]

/-- **C5, counterexample.**  The claim says the parent process's own `PATH`
is never mutated process-globally.  On the embedded code, after a
successful launch the process-global `PATH` (mutated with
`std::env::set_var` before the spawn) is `bin_dir:old`, different from the
original value. -/
theorem C5_counterexample :
    run_bundled_binary_launch c5fs "/tmp/rex" "hello" "/usr/bin" ["arg"]
      = Except.ok c5eff
    ∧ c5eff.parentPathAfter ≠ "/usr/bin" := by
  exact ⟨rfl, by decide⟩

/-- **C5 (amended).**  When launching the bundled target, `bin_dir` is
prepended to `PATH` by mutating the parent process's own (process-global)
environment before the spawn; the child inherits exactly that mutated
value, and the working directory is `bin_dir`. -/
theorem C5_theorem (fs : String → Bool) (root name old : String)
    (args : List String) (eff : LaunchEffect)
    (h : run_bundled_binary_launch fs root name old args = .ok eff) :
    eff.parentPathAfter = root ++ "/" ++ name ++ "_bundle" ++ "/bins" ++ ":" ++ old
    ∧ eff.childPath = eff.parentPathAfter
    ∧ eff.childCwd = root ++ "/" ++ name ++ "_bundle" ++ "/bins" := by
  simp only [run_bundled_binary_launch] at h
  split at h
  · simp at h
  · split at h
    · simp at h
    · rw [Except.ok.injEq] at h
      subst h
      exact ⟨rfl, rfl, rfl⟩

/-- **C5, witness** on the concrete `/tmp/rex` scenario. -/
theorem C5_witness :
    c5eff.parentPathAfter
      = "/tmp/rex" ++ "/" ++ "hello" ++ "_bundle" ++ "/bins" ++ ":" ++ "/usr/bin"
    ∧ c5eff.childPath = c5eff.parentPathAfter
    ∧ c5eff.childCwd = "/tmp/rex" ++ "/" ++ "hello" ++ "_bundle" ++ "/bins" :=
  C5_theorem c5fs "/tmp/rex" "hello" "/usr/bin" ["arg"] c5eff rfl

/-! ### Claim C8 — the loader is shipped in libs/ and selected by probing -/

/-- **C8.**  The generator copies the system dynamic loader it finds into
`libs/` of the staging tree, keyed by basename (`ld-linux-x86-64.so.2` or
`ld-musl-x86_64.so.1`); at launch the runtime selects the loader by
probing the extracted `libs/`: `libs_dir/ld-linux-x86-64.so.2` if it
exists, else `libs_dir/ld-musl-x86_64.so.1`, and the launch fails with
the loader-missing error when neither exists. -/
theorem C8_theorem (fs : String → Bool) (ldd : String → Option (List (List String)))
    (exeB payloadB : List Nat) (args : BundleArgs) (p : String) (libs_dir : String)
    (hp : find_system_loader fs = some p) :
    (GenEvent.copyLoaderToLibs (basename p) ∈ generate_bundle fs ldd exeB payloadB args
      ∧ (basename p = "ld-linux-x86-64.so.2" ∨ basename p = "ld-musl-x86_64.so.1"))
    ∧ (∀ res, select_loader fs libs_dir = some res →
        fs res = true
        ∧ (res = libs_dir ++ "/ld-linux-x86-64.so.2"
            ∨ res = libs_dir ++ "/ld-musl-x86_64.so.1")
        ∧ (fs (libs_dir ++ "/ld-linux-x86-64.so.2") = true →
            res = libs_dir ++ "/ld-linux-x86-64.so.2"))
    ∧ (select_loader fs libs_dir = none →
        fs (libs_dir ++ "/ld-linux-x86-64.so.2") = false
        ∧ fs (libs_dir ++ "/ld-musl-x86_64.so.1") = false)
    ∧ (∀ root name old cargs,
        select_loader fs (root ++ "/" ++ name ++ "_bundle" ++ "/libs") = none →
        fs (root ++ "/" ++ name ++ "_bundle" ++ "/" ++ name) = true →
        run_bundled_binary_launch fs root name old cargs
          = .error "No compatible loader found (ld-linux or ld-musl)") := by
  refine ⟨⟨?_, ?_⟩, ?_, ?_, ?_⟩
  · simp [generate_bundle, hp]
  · have hmem : p ∈ possible_loader_paths := List.mem_of_find?_eq_some hp
    simp only [possible_loader_paths, List.mem_cons, List.not_mem_nil, or_false] at hmem
    rcases hmem with rfl | rfl | rfl | rfl | rfl | rfl | rfl
    all_goals decide
  · intro res hres
    simp only [select_loader] at hres
    split at hres
    · rename_i hg
      rw [Option.some.injEq] at hres
      subst hres
      exact ⟨hg, Or.inl rfl, fun _ => rfl⟩
    · split at hres
      · rename_i hg hm
        rw [Option.some.injEq] at hres
        subst hres
        refine ⟨hm, Or.inr rfl, fun hc => absurd hc hg⟩
      · simp at hres
  · intro hnone
    simp only [select_loader] at hnone
    split at hnone
    · simp at hnone
    · split at hnone
      · simp at hnone
      · rename_i hg hm
        exact ⟨Bool.not_eq_true _ ▸ eq_false_of_ne_true hg, eq_false_of_ne_true hm⟩
  · intro root name old cargs hsel htgt
    simp only [run_bundled_binary_launch]
    rw [htgt]
    simp only [Bool.true_eq_false, if_false]
    rw [hsel]

/-- Host filesystem for the C8 witness: only the first probed loader path
exists. -/
def c8fs : String → Bool := fun p => p == "/lib64/ld-linux-x86-64.so.2"

def c8ldd : String → Option (List (List String)) := fun _ => none

def c8args : BundleArgs := ⟨"/bin/ls", "zstd", [], []⟩

/-- **C8, witness**: on a host whose loader is `/lib64/ld-linux-x86-64.so.2`,
the generator copies it into `libs/` under its basename. -/
theorem C8_witness :
    GenEvent.copyLoaderToLibs (basename "/lib64/ld-linux-x86-64.so.2")
      ∈ generate_bundle c8fs c8ldd [1] [2] c8args :=
  (C8_theorem c8fs c8ldd [1] [2] c8args "/lib64/ld-linux-x86-64.so.2"
    "/any/libs" rfl).1.1

/-! ### Concrete executable images for the trailer-parser claims -/

/-- A minimal well-formed bundle image: 13 filler bytes (standing for the
tool image and payload), the name `a`, metadata (payload_size 0, zstd,
name_len 1), magic marker; 40 bytes in total. -/
def c7file : List Nat :=
  List.replicate 13 0 ++ [97] ++ metadataBytes ⟨0, 0, 1⟩ ++ MAGIC_MARKER

/-- The same image with a recorded `payload_size` (1000) exceeding the
file: a truncated bundle. -/
def c7tfile : List Nat :=
  List.replicate 13 0 ++ [97] ++ metadataBytes ⟨1000, 0, 1⟩ ++ MAGIC_MARKER

/-- A 282-byte image whose only magic occurrence starts at offset 0 — inside
the code's 282-byte search window but not contained in the last 278
bytes. -/
def c6file : List Nat := MAGIC_MARKER ++ List.replicate 272 0

/-- A bundle image whose embedded name is `a/b` (contains the byte 0x2F). -/
def c4afile : List Nat :=
  List.replicate 13 0 ++ [97, 47, 98] ++ metadataBytes ⟨0, 0, 3⟩ ++ MAGIC_MARKER

/-- An image that is only metadata + marker, with `name_len` 5 larger than
`metadata_start` 0: the `checked_sub(..).unwrap()` underflow case. -/
def c4bfile : List Nat := metadataBytes ⟨0, 0, 5⟩ ++ MAGIC_MARKER

/-- A bundle image whose recorded `name_len` is 300 > 256. -/
def c4cfile : List Nat :=
  List.replicate 300 65 ++ metadataBytes ⟨0, 0, 300⟩ ++ MAGIC_MARKER

/-- Case lemma: no marker in the window means generator mode (`Ok(None)`). -/
theorem find_payload_info_eq_none (file : List Nat)
    (h : rfindMarker (searchBuffer file) = none) :
    find_payload_info file = ParseResult.ok none := by
  unfold find_payload_info
  rw [h]

/-- Case lemma: a marker at window index `i` hands over to the field parse
at absolute offset `search_start_offset + i`. -/
theorem find_payload_info_eq_some (file : List Nat) (i : Nat)
    (h : rfindMarker (searchBuffer file) = some i) :
    find_payload_info file
      = parseAfterMarker file (searchStartOffset file.length + i) := by
  unfold find_payload_info
  rw [h]

/-! ### Claim C4 — which trailer validations the parser actually performs -/

/-- **C4, counterexample.**  The claim says the parser validates
`name_len ≤ 256`, rejects any `/` byte in the name, and turns arithmetic
underflow into a `CorruptTrailer` error rather than a panic.  On the
embedded code: a name `a/b` (with byte 47 = `/`) is accepted; an image
with `metadata_start < name_len` makes the parser panic
(`checked_sub(..).unwrap()`), not error; and a name length of 300 > 256
is accepted. -/
theorem C4_counterexample :
    find_payload_info c4afile
      = ParseResult.ok (some ⟨⟨0, 0, 3⟩, 13, [97, 47, 98]⟩)
    ∧ (47 ∈ [97, 47, 98])
    ∧ find_payload_info c4bfile = ParseResult.panicked
    ∧ find_payload_info c4cfile
      = ParseResult.ok (some ⟨⟨0, 0, 300⟩, 0, List.replicate 300 65⟩) := by
  decide

/-- **C4 (amended).**  For every executable image in which the magic marker
is found, the trailer parser rejects `name_len = 0` and non-UTF-8 name
bytes with an error: every accepted trailer has a non-zero name length
and valid UTF-8 name bytes.  (It enforces no 256 upper bound on
`name_len`, does not reject `/` bytes, and the
`metadata_start < name_len` underflow panics instead of erroring, as the
counterexample shows.) -/
theorem C4_theorem (file : List Nat) (info : PayloadInfo)
    (h : find_payload_info file = ParseResult.ok (some info)) :
    info.metadata.target_bin_name_len ≠ 0
    ∧ validUtf8 info.target_binary_name = true := by
  cases hm : rfindMarker (searchBuffer file) with
  | none =>
    rw [find_payload_info_eq_none file hm] at h
    simp at h
  | some i =>
    rw [find_payload_info_eq_some file i hm] at h
    simp only [parseAfterMarker] at h
    split at h
    · simp at h
    · split at h
      · simp at h
      · split at h
        · simp at h
        · split at h
          · simp at h
          · split at h
            · simp at h
            · rw [ParseResult.ok.injEq, Option.some.injEq] at h
              subst h
              rename_i hnz hsub hutf hfit
              refine ⟨hnz, ?_⟩
              simpa using hutf

/-- **C4, witness** on the minimal well-formed image. -/
theorem C4_witness :
    (⟨⟨0, 0, 1⟩, 13, [97]⟩ : PayloadInfo).metadata.target_bin_name_len ≠ 0
    ∧ validUtf8 (⟨⟨0, 0, 1⟩, 13, [97]⟩ : PayloadInfo).target_binary_name = true :=
  C4_theorem c7file ⟨⟨0, 0, 1⟩, 13, [97]⟩ (by decide)

/-! ### Claim C6 — size of the search window and rightmost-marker search -/

/-- The last element of a filtered range satisfies the predicate, and no
larger in-range index does. -/
theorem range_filter_getLast_spec (n : Nat) (p : Nat → Bool) (i : Nat)
    (h : ((List.range n).filter p).getLast? = some i) :
    p i = true ∧ ∀ j, i < j → j < n → p j = false := by
  induction n with
  | zero => simp [List.range_zero] at h
  | succ n ih =>
    rw [List.range_succ, List.filter_append] at h
    by_cases hp : p n = true
    · have hone : List.filter p [n] = [n] := by simp [hp]
      rw [hone, List.getLast?_concat] at h
      rw [Option.some.injEq] at h
      subst h
      refine ⟨hp, ?_⟩
      intro j h1 h2
      omega
    · have hnil : List.filter p [n] = [] := by simp [hp]
      rw [hnil, List.append_nil] at h
      obtain ⟨h1, h2⟩ := ih h
      refine ⟨h1, ?_⟩
      intro j hij hjn
      rcases Nat.lt_succ_iff_lt_or_eq.mp hjn with hlt | rfl
      · exact h2 j hij hlt
      · exact eq_false_of_ne_true hp

/-- A window starting past `length − 10` can never hold the full magic. -/
theorem isMarkerAt_of_past_end (buf : List Nat) (j : Nat)
    (h : buf.length < j + 10) : isMarkerAt buf j = false := by
  unfold isMarkerAt
  by_contra hne
  simp only [Bool.not_eq_false, beq_iff_eq] at hne
  have hlen := congrArg List.length hne
  simp only [List.length_take, List.length_drop] at hlen
  have hmag : MAGIC_MARKER.length = 10 := by decide
  rw [hmag] at hlen
  omega

/-- What a successful rightmost search returns: a true marker position with
no marker at any strictly larger position. -/
theorem rfindMarker_some (buf : List Nat) (i : Nat)
    (h : rfindMarker buf = some i) :
    isMarkerAt buf i = true ∧ ∀ j, i < j → isMarkerAt buf j = false := by
  unfold rfindMarker at h
  obtain ⟨h1, h2⟩ := range_filter_getLast_spec _ _ _ h
  refine ⟨h1, ?_⟩
  intro j hij
  by_cases hj : j < buf.length + 1 - MAGIC_MARKER.length
  · exact h2 j hij hj
  · apply isMarkerAt_of_past_end
    have hmag : MAGIC_MARKER.length = 10 := by decide
    rw [hmag] at hj
    omega

/-- **C6, counterexample.**  The claim says the locator reads the last
`min(file_size, 12 + 10 + 256) = 278` bytes and returns `None` when the
marker is absent from that window.  On `c6file` (282 bytes with the magic
at offset 0) the marker is absent from the last 278 bytes — so under the
claim the run would be in generator mode — yet the embedded code, whose
window is 16 + 10 + 256 = 282 bytes, finds the marker and returns an
error from the subsequent field parse instead of `None`. -/
theorem C6_counterexample :
    rfindMarker (c6file.drop (c6file.length - (12 + 10 + 256))) = none
    ∧ find_payload_info c6file ≠ ParseResult.ok none := by
  decide

/-- **C6 (amended).**  The runtime trailer locator reads exactly the last
`min(file_size, 16 + 10 + 256) = 282` bytes of the executable image,
finds the last (rightmost) occurrence of the 10-byte magic marker in that
window, and returns `Ok(None)` (generator mode) when the marker is absent
from the window. -/
theorem C6_theorem (file : List Nat) :
    (searchBuffer file).length = min file.length (16 + 10 + 256)
    ∧ (rfindMarker (searchBuffer file) = none →
        find_payload_info file = ParseResult.ok none)
    ∧ (∀ i, rfindMarker (searchBuffer file) = some i →
        isMarkerAt (searchBuffer file) i = true
        ∧ ∀ j, i < j → isMarkerAt (searchBuffer file) j = false) := by
  refine ⟨?_, ?_, ?_⟩
  · unfold searchBuffer searchStartOffset
    rw [List.length_drop]
    have h282 : FIXED_METADATA_SIZE + MAX_NAME_LEN = 282 := rfl
    omega
  · intro hnone
    exact find_payload_info_eq_none file hnone
  · intro i hi
    exact rfindMarker_some _ _ hi

/-- **C6, witness**: a 300-byte all-zero image has no marker in its window
and the locator reports generator mode. -/
theorem C6_witness :
    find_payload_info (List.replicate 300 0) = ParseResult.ok none :=
  (C6_theorem (List.replicate 300 0)).2.1 (by decide)

/-! ### Claim C7 — payload start offset arithmetic and truncation -/

/-- **C7, counterexample.**  The claim computes the payload start as
`file_size − (10 + 12 + name_len + payload_size)`.  On the minimal
40-byte bundle the embedded code accepts the trailer with start offset
13 = 40 − (10 + 16 + 1 + 0), but the claimed formula gives
40 − (10 + 12 + 1 + 0) = 17 ≠ 13. -/
theorem C7_counterexample :
    find_payload_info c7file = ParseResult.ok (some ⟨⟨0, 0, 1⟩, 13, [97]⟩)
    ∧ c7file.length - (10 + 12 + 1 + 0) ≠ 13 := by
  decide

/-- **C7 (amended).**  For every parsed trailer, the payload start offset
is computed as `file_size` minus `(10 + 16 + name_len + payload_size)`
and that quantity must fit in the file (the subtraction is checked); in
particular a bundle truncated so that the recorded `payload_size` exceeds
the file yields the `Invalid payload offset` error and exit code 1. -/
theorem C7_theorem :
    (∀ (file : List Nat) (info : PayloadInfo),
      find_payload_info file = ParseResult.ok (some info) →
      FIXED_METADATA_SIZE + info.metadata.target_bin_name_len
          + info.metadata.payload_size < 2 ^ 64 →
      info.payload_start_offset
        = file.length - (10 + 16 + info.metadata.target_bin_name_len
            + info.metadata.payload_size)
      ∧ 10 + 16 + info.metadata.target_bin_name_len
            + info.metadata.payload_size ≤ file.length)
    ∧ find_payload_info c7tfile = ParseResult.error "Invalid payload offset"
    ∧ runtime_new_exit_code (find_payload_info c7tfile) = some 1 := by
  refine ⟨?_, by decide, by decide⟩
  intro file info h hlt
  cases hm : rfindMarker (searchBuffer file) with
  | none =>
    rw [find_payload_info_eq_none file hm] at h
    simp at h
  | some i =>
    rw [find_payload_info_eq_some file i hm] at h
    simp only [parseAfterMarker] at h
    split at h
    · simp at h
    · split at h
      · simp at h
      · split at h
        · simp at h
        · split at h
          · simp at h
          · split at h
            · simp at h
            · rw [ParseResult.ok.injEq, Option.some.injEq] at h
              subst h
              rename_i hnz hsub hutf hfit
              simp only at hfit hlt ⊢
              rw [Nat.mod_eq_of_lt hlt] at hfit ⊢
              have h26 : FIXED_METADATA_SIZE = 26 := rfl
              constructor
              · rw [h26]
              · rw [h26] at hfit
                omega

/-- **C7, witness** on the minimal well-formed 40-byte bundle: the accepted
start offset is `40 − (10 + 16 + 1 + 0) = 13`. -/
theorem C7_witness :
    (13 : Nat) = c7file.length - (10 + 16 + 1 + 0)
    ∧ 10 + 16 + 1 + 0 ≤ c7file.length :=
  C7_theorem.1 c7file ⟨⟨0, 0, 1⟩, 13, [97]⟩ (by decide) (by decide)

end Rex
